import Mathlib

/-!
# Verification of `inspect_model/utils.py` (django-inspect-model)

Shallow embedding of the single component of the repository: the
`InspectModel` class, which classifies the members of a Django model class
into seven sets (`fields`, `relation_fields`, `many_fields`, `attributes`,
`methods`, `properties`, and the union `items`).

The embedding mirrors the Python source line by line:

* a model class is a pair of an optional `_meta` descriptor (the value of
  `getattr(model, '_meta', None)`) and a member namespace, modelled as an
  association list from names to abstracted member values (one entry per
  name in `dir(model)`, with the value `getattr(model, name, None)` would
  return);
* Python `set` objects become `Finset String`;
* the two `try: from django... import ... except ImportError: pass` blocks
  become two boolean capability flags in an `Env` record (`True` = the
  module is importable);
* the four `update_*` passes and `_add_item` are translated one branch at
  a time; iteration over `dir(model)` / `_meta.get_fields()` becomes
  `List.foldl` over the corresponding list.
-/

namespace InspectModelSpec

/-- The relation descriptor `field.rel` of a Django field, as consumed by
`update_fields`.  The code reads exactly two things from it:
`hasattr(field.rel, 'through')` (true for many-to-many relations, whose
`rel` carries the link table) and `field.rel.multiple` (true when the
relation is multiple-cardinality as seen from the related model's side,
i.e. for reverse foreign keys and reverse many-to-many). -/
structure Rel where
  hasThrough : Bool
  multiple : Bool
deriving DecidableEq, Repr

/-- One entry of `opts.model._meta.get_fields()`, restricted to the
attributes `update_fields` reads.

* `name`, `auto_created`, `concrete`, `many_to_many`, `rel` are read on
  every entry (`many_to_many` is bound to the local `m2m`, which the code
  then never uses);
* on the reverse branch (`not direct`) the code reads
  `field.get_accessor_name()` (here `accessor_name`) and `field.field.rel`
  (here `field_rel`, the `rel` of the foreign key / m2m field on the model
  that declares the relation — always present on such a field);
* on the direct branch it reads `field.name` and `field.rel`
  (`rel = none` models Python `field.rel` being `None`, which is falsy;
  a relation-descriptor object is always truthy). -/
structure FieldEntry where
  name : String
  auto_created : Bool
  concrete : Bool
  many_to_many : Bool
  rel : Option Rel
  accessor_name : String
  field_rel : Rel
deriving DecidableEq, Repr

/-- One entry of `opts.virtual_fields`, restricted to what the generic
foreign key scan reads: its `name` and whether
`isinstance(f, GenericForeignKey)` holds. -/
structure VirtualField where
  name : String
  is_generic_fk : Bool
deriving DecidableEq, Repr

/-- The `_meta` options descriptor: the list returned by
`opts.model._meta.get_fields()` and the list `opts.virtual_fields`. -/
structure Meta where
  get_fields : List FieldEntry
  virtual_fields : List VirtualField
deriving DecidableEq, Repr

/-- The value `getattr(model, name, None)` returns for a member name,
abstracted to the kinds the source distinguishes:

* `pyNone` — the `getattr` default `None` (no `inspect.is*` predicate
  holds of `None`, it is not a `Manager` and not a `property`);
* `function nargs ndefaults` — a plain function (`inspect.isfunction`),
  with `len(args)` and `len(defaults)` of its `inspect.getargspec`
  (for a method defined in a class body and looked up on the class in
  Python 3, `args` includes the receiver parameter);
* `boundMethod nargs ndefaults` — `inspect.ismethod` holds, same argspec
  data (`args` includes `self`);
* `prop` — a `property` instance (a data descriptor, so
  `inspect.isdatadescriptor` holds of it; it is neither a function nor a
  method);
* `manager` — a `django.db.models.manager.Manager` instance (an ordinary
  object: no `inspect.is*` predicate in `ALL_BUT_ATTRIBUTES` holds of it,
  which is why the source needs the explicit `isinstance` check);
* `otherNonAttr` — any other value satisfying at least one predicate in
  `ALL_BUT_ATTRIBUTES` (a module, class, generator, traceback, frame,
  code object, routine, abstract class, or one of the four descriptor
  kinds);
* `plainValue` — any other value: no predicate in `ALL_BUT_ATTRIBUTES`
  holds, it is not a `Manager` and not a `property`. -/
inductive MemberValue where
  | pyNone
  | function (nargs ndefaults : Nat)
  | boundMethod (nargs ndefaults : Nat)
  | prop
  | manager
  | otherNonAttr
  | plainValue
deriving DecidableEq, Repr

/-- A model class: `meta` is `getattr(model, '_meta', None)`; `members`
lists, in `dir(model)` order, each member name paired with the value
`getattr(model, name, None)` yields for it (`dir` returns distinct sorted
names; within one construction no mutation happens, so each name has one
value across all passes). -/
structure PyClass where
  meta : Option Meta
  members : List (String × MemberValue)
deriving DecidableEq, Repr

/-- `dir(self.model)`: the member names. -/
def PyClass.dirNames (c : PyClass) : List String :=
  c.members.map Prod.fst

/-- `getattr(self.model, a, None)`. -/
def PyClass.getattrOrNone (c : PyClass) (a : String) : MemberValue :=
  match c.members.lookup a with
  | some v => v
  | none => .pyNone

/-- The constructor argument: a model class, or a model instance whose
`__class__` is the given class (`inspect.isclass` distinguishes them). -/
inductive ModelRef where
  | cls (c : PyClass)
  | inst (c : PyClass)
deriving DecidableEq, Repr

/-- Lines 41–43: `self.model = model; if not inspect.isclass(model):
self.model = model.__class__`. -/
def resolveModel : ModelRef → PyClass
  | .cls c => c
  | .inst c => c

/-- Import environment: whether
`from django.contrib.contenttypes.generic import GenericForeignKey`
(line 99) and `from django.db.models.manager import Manager` (line 115)
succeed.  The source catches exactly `ImportError` around each. -/
structure Env where
  generic_fk_importable : Bool
  manager_importable : Bool
deriving DecidableEq, Repr

/-- The mutable set-valued state of an `InspectModel` object. -/
structure InspectState where
  fields : Finset String
  relation_fields : Finset String
  many_fields : Finset String
  attributes : Finset String
  methods : Finset String
  properties : Finset String
  items : Finset String
deriving DecidableEq

/-- The state right after lines 45–52: all seven sets empty. -/
def initState : InspectState :=
  ⟨∅, ∅, ∅, ∅, ∅, ∅, ∅⟩

/-- Which of the six category sets `_add_item` is adding to. -/
inductive Category where
  | fields
  | relation_fields
  | many_fields
  | attributes
  | methods
  | properties
deriving DecidableEq, Repr

/-- Lines 142–144: `def _add_item(self, item, item_type):
item_type.add(item); self.items.add(item)`. -/
def add_item (st : InspectState) (item : String) (cat : Category) : InspectState :=
  let st := { st with items := insert item st.items }
  match cat with
  | .fields => { st with fields := insert item st.fields }
  | .relation_fields => { st with relation_fields := insert item st.relation_fields }
  | .many_fields => { st with many_fields := insert item st.many_fields }
  | .attributes => { st with attributes := insert item st.attributes }
  | .methods => { st with methods := insert item st.methods }
  | .properties => { st with properties := insert item st.properties }

/-- Python `name.startswith('_')` for the one-character prefix `'_'`:
true exactly when the first character of `name` is an underscore (false on
the empty string, like Python's `''.startswith('_')`). -/
def startswith_underscore (s : String) : Bool :=
  s.data.head? == some '_'

/-- `DJANGO_GENERATED_METHODS` (lines 26–35). -/
def DJANGO_GENERATED_METHODS : Finset String :=
  {"check", "clean", "clean_fields", "delete", "full_clean", "save",
   "save_base", "validate_unique"}

/-- `any([check(item) for check in ALL_BUT_ATTRIBUTES])` (line 120), as a
single predicate on the abstracted member value.  The list
`ALL_BUT_ATTRIBUTES` (lines 8–24) holds `inspect.ismodule`, `isclass`,
`ismethod`, `isfunction`, `isgeneratorfunction`, `isgenerator`,
`istraceback`, `isframe`, `iscode`, `isroutine`, `isabstract`,
`ismethoddescriptor`, `isdatadescriptor`, `isgetsetdescriptor` and
`ismemberdescriptor`.  Per constructor: a function or bound method makes
`isfunction` / `ismethod` (and `isroutine`) true; a `property` instance
makes `isdatadescriptor` true; `otherNonAttr` abstracts the remaining
values satisfying some check; `None`, a `Manager` instance and a plain
value satisfy none of the fifteen. -/
def matches_all_but_attributes : MemberValue → Bool
  | .function _ _ => true
  | .boundMethod _ _ => true
  | .prop => true
  | .otherNonAttr => true
  | .pyNone => false
  | .manager => false
  | .plainValue => false

/-- `isinstance(item, Manager)` (line 116). -/
def is_manager_instance : MemberValue → Bool
  | .manager => true
  | _ => false

/-- `isinstance(getattr(self.model, name, None), property)` (line 139). -/
def is_property_instance : MemberValue → Bool
  | .prop => true
  | _ => false

/-- Lines 147–154: `is_method_without_args(func)`.  Returns `False` unless
`inspect.isfunction(func)` or `inspect.ismethod(func)`; otherwise takes
`args, _, _, defaults = inspect.getargspec(func)`, drops the trailing
defaulted parameters (`args = args[:-len(defaults)]` when `defaults` is
non-empty; `len(defaults) ≤ len(args)` in any Python signature, and `Nat`
subtraction truncates the same way slicing does) and tests
`len(args) == 1`. -/
def is_method_without_args : MemberValue → Bool
  | .function nargs ndefaults => nargs - ndefaults == 1
  | .boundMethod nargs ndefaults => nargs - ndefaults == 1
  | _ => false

/-- `opts.model._meta.get_field(f)` (line 77): Django resolves a field
name to the metadata entry carrying that name (raises if absent; here the
name is always drawn from `get_fields()` itself, so lookup succeeds). -/
def get_field (entries : List FieldEntry) (n : String) : Option FieldEntry :=
  entries.find? (fun e => e.name == n)

/-- Lines 77–97, the body of the `for f in opts_names` loop, for one field
name: resolve the entry, compute `direct = not field.auto_created or
field.concrete`, and classify.  (The unreachable `none` branch models
Django's `get_field` raising on an unknown name; it cannot fire because
each processed name comes from `get_fields()`.) -/
def fields_step (entries : List FieldEntry) (st : InspectState) (n : String) :
    InspectState :=
  match get_field entries n with
  | none => st
  | some field =>
    let direct := !field.auto_created || field.concrete
    if !direct then
      -- relation or many field from another model
      let name := field.accessor_name
      if field.field_rel.multiple then  -- m2m or fk to this model
        add_item st name .many_fields
      else  -- one to one
        add_item st name .relation_fields
    else
      -- relation, many or field from this model
      let name := field.name
      match field.rel with
      | some r =>  -- relation or many field
        if r.hasThrough then  -- m2m
          add_item st name .many_fields
        else
          add_item st name .relation_fields
      | none =>  -- standard field
        add_item st name .fields

/-- Lines 101–103, the body of the `for f in opts.virtual_fields` loop:
add the name of every `GenericForeignKey` to `relation_fields`. -/
def virtual_step (st : InspectState) (f : VirtualField) : InspectState :=
  if f.is_generic_fk then add_item st f.name .relation_fields else st

/-- Lines 59–105: `update_fields`.  Reset the three field sets, then, when
the model has a `_meta`, classify every name of `get_fields()`; finally,
when `GenericForeignKey` is importable, scan `opts.virtual_fields` (an
`ImportError` on line 99 skips the whole `try` body, so the scan simply
does not run). -/
def update_fields (env : Env) (c : PyClass) (st : InspectState) : InspectState :=
  let st := { st with fields := ∅, relation_fields := ∅, many_fields := ∅ }
  match c.meta with
  | none => st
  | some opts =>
    let opts_names := opts.get_fields.map FieldEntry.name
    let st := opts_names.foldl (fields_step opts.get_fields) st
    if env.generic_fk_importable then
      opts.virtual_fields.foldl virtual_step st
    else
      st

/-- Lines 110–122, the body of the `for a in dir(self.model)` loop:
skip underscore-prefixed names and names already in `self.fields`; skip
`Manager` instances when the `Manager` import succeeds (an `ImportError`
skips the `isinstance` test); skip values matching any
`ALL_BUT_ATTRIBUTES` check; everything else is an attribute. -/
def attributes_step (env : Env) (c : PyClass) (st : InspectState) (a : String) :
    InspectState :=
  if startswith_underscore a || a ∈ st.fields then st
  else
    let item := c.getattrOrNone a
    if env.manager_importable && is_manager_instance item then st
    else if matches_all_but_attributes item then st
    else add_item st a .attributes

/-- Lines 107–122: `update_attributes`. -/
def update_attributes (env : Env) (c : PyClass) (st : InspectState) : InspectState :=
  let st := { st with attributes := ∅ }
  c.dirNames.foldl (attributes_step env c) st

/-- Lines 127–133, the body of the `for m in dir(self.model)` loop:
skip underscore-prefixed names, names already in `self.fields` and names
in `DJANGO_GENERATED_METHODS`; keep the name when
`is_method_without_args(getattr(self.model, m, None))`. -/
def methods_step (c : PyClass) (st : InspectState) (m : String) : InspectState :=
  if startswith_underscore m || m ∈ st.fields then st
  else if m ∈ DJANGO_GENERATED_METHODS then st
  else if is_method_without_args (c.getattrOrNone m) then
    add_item st m .methods
  else st

/-- Lines 124–133: `update_methods`. -/
def update_methods (c : PyClass) (st : InspectState) : InspectState :=
  let st := { st with methods := ∅ }
  c.dirNames.foldl (methods_step c) st

/-- Lines 138–140, the body of the `for name in dir(self.model)` loop:
keep every name whose value is a `property` instance (no underscore or
field filtering here). -/
def properties_step (c : PyClass) (st : InspectState) (name : String) :
    InspectState :=
  if is_property_instance (c.getattrOrNone name) then
    add_item st name .properties
  else st

/-- Lines 135–140: `update_properties`. -/
def update_properties (c : PyClass) (st : InspectState) : InspectState :=
  let st := { st with properties := ∅ }
  c.dirNames.foldl (properties_step c) st

/-- The result of `InspectModel(model)`: the resolved `self.model`
together with the seven populated sets. -/
structure InspectResult where
  model : PyClass
  state : InspectState
deriving DecidableEq

/-- Lines 40–57: the `InspectModel.__init__` constructor.  Resolve the
model reference to a class, start from empty sets, and run the four
classification passes in order. -/
def inspectModel (env : Env) (modelRef : ModelRef) : InspectResult :=
  let model := resolveModel modelRef
  let st := initState
  let st := update_fields env model st
  let st := update_attributes env model st
  let st := update_methods model st
  let st := update_properties model st
  ⟨model, st⟩

/-- The union invariant kept by `_add_item`: `items` is exactly the union
of the six category sets. -/
def itemsInvariant (st : InspectState) : Prop :=
  st.items = st.fields ∪ st.relation_fields ∪ st.many_fields ∪
    st.attributes ∪ st.methods ∪ st.properties

/-- Every name in `attributes` survived the three guards of
`update_attributes`: it is not underscore-prefixed, not a field name, and
its value fails every `ALL_BUT_ATTRIBUTES` check. -/
def attrsOK (c : PyClass) (st : InspectState) : Prop :=
  ∀ a ∈ st.attributes, startswith_underscore a = false ∧ a ∉ st.fields ∧
    matches_all_but_attributes (c.getattrOrNone a) = false

/-- Every name in `methods` survived the guards of `update_methods` and
its value passed `is_method_without_args`. -/
def methodsOK (c : PyClass) (st : InspectState) : Prop :=
  ∀ m ∈ st.methods, startswith_underscore m = false ∧ m ∉ st.fields ∧
    m ∉ DJANGO_GENERATED_METHODS ∧
    is_method_without_args (c.getattrOrNone m) = true

/-- Every name in `properties` has a `property` instance as its value. -/
def propsOK (c : PyClass) (st : InspectState) : Prop :=
  ∀ p ∈ st.properties, is_property_instance (c.getattrOrNone p) = true

/-! ## Concrete models used in scenario theorems, counterexamples and
witnesses -/

/-- The `title` entry of the scenario model: a plain `CharField`-style
field declared on the model itself (`auto_created = False`,
`concrete = True`, `rel = None`). -/
def title_entry : FieldEntry :=
  { name := "title", auto_created := false, concrete := true,
    many_to_many := false, rel := none, accessor_name := "",
    field_rel := ⟨false, false⟩ }

/-- The `author` entry of the scenario model: a forward `ForeignKey`.  Its
`rel` is a relation descriptor without a `through` attribute
(`hasThrough = false`); `rel.multiple` is true for a foreign key but is
never read on the direct branch. -/
def author_entry : FieldEntry :=
  { name := "author", auto_created := false, concrete := true,
    many_to_many := false, rel := some ⟨false, true⟩, accessor_name := "",
    field_rel := ⟨false, false⟩ }

/-- The `tags` entry of the scenario model: a forward `ManyToManyField`,
whose `rel` carries a `through` link table (`hasThrough = true`). -/
def tags_entry : FieldEntry :=
  { name := "tags", auto_created := false, concrete := true,
    many_to_many := true, rel := some ⟨true, true⟩, accessor_name := "",
    field_rel := ⟨false, false⟩ }

def scenario_meta : Meta :=
  { get_fields := [title_entry, author_entry, tags_entry],
    virtual_fields := [] }

/-- The scenario model of the spec: plain text field `title`, foreign key
`author`, many-to-many `tags`, computed property `display_name` and
zero-argument method `summary(self)` (argspec: one parameter, no
defaults). -/
def scenario_model : PyClass :=
  { meta := some scenario_meta,
    members := [("display_name", .prop), ("summary", .function 1 0)] }

/-- A model whose only member is `def touch(self=None)`: a function whose
single parameter (the receiver) carries a default, so
`inspect.getargspec` gives one argument and one default. -/
def defaulted_self_model : PyClass :=
  { meta := none, members := [("touch", .function 1 1)] }

/-- Modelled from the spec: the "required-parameter count, after the
implicit receiver parameter and after subtracting parameters that have
defaults" of a function with `nargs` declared parameters (receiver
included) of which the last `ndefaults` have defaults. -/
def spec_required_param_count (nargs ndefaults : Nat) : Nat :=
  nargs - 1 - ndefaults

/-- A model on which distinct category sets of the inspector overlap:
field names that double as reverse accessor names, and member values
(properties, plain attributes, zero-argument methods) bound to names that
are also classified by `update_fields`. -/
def overlap_model : PyClass :=
  { meta := some
      { get_fields :=
          [ { name := "pf", auto_created := false, concrete := true,
              many_to_many := false, rel := none, accessor_name := "",
              field_rel := ⟨false, false⟩ },
            { name := "r1", auto_created := true, concrete := false,
              many_to_many := false, rel := none, accessor_name := "pf",
              field_rel := ⟨false, false⟩ },
            { name := "r2", auto_created := true, concrete := false,
              many_to_many := false, rel := none, accessor_name := "pf2",
              field_rel := ⟨false, true⟩ },
            { name := "pf2", auto_created := false, concrete := true,
              many_to_many := false, rel := none, accessor_name := "",
              field_rel := ⟨false, false⟩ },
            { name := "r3", auto_created := true, concrete := false,
              many_to_many := false, rel := none, accessor_name := "dup",
              field_rel := ⟨false, false⟩ },
            { name := "r4", auto_created := true, concrete := false,
              many_to_many := false, rel := none, accessor_name := "dup",
              field_rel := ⟨false, true⟩ },
            { name := "r5", auto_created := true, concrete := false,
              many_to_many := false, rel := none, accessor_name := "pr",
              field_rel := ⟨false, false⟩ },
            { name := "r6", auto_created := true, concrete := false,
              many_to_many := false, rel := none, accessor_name := "mp",
              field_rel := ⟨false, true⟩ },
            { name := "fp", auto_created := false, concrete := true,
              many_to_many := false, rel := none, accessor_name := "",
              field_rel := ⟨false, false⟩ },
            { name := "r7", auto_created := true, concrete := false,
              many_to_many := false, rel := none, accessor_name := "ra",
              field_rel := ⟨false, false⟩ },
            { name := "r8", auto_created := true, concrete := false,
              many_to_many := false, rel := none, accessor_name := "ma",
              field_rel := ⟨false, true⟩ },
            { name := "r9", auto_created := true, concrete := false,
              many_to_many := false, rel := none, accessor_name := "rm",
              field_rel := ⟨false, false⟩ },
            { name := "r10", auto_created := true, concrete := false,
              many_to_many := false, rel := none, accessor_name := "mm",
              field_rel := ⟨false, true⟩ } ],
        virtual_fields := [] },
    members := [("fp", .prop), ("pr", .prop), ("mp", .prop),
      ("ra", .plainValue), ("ma", .plainValue),
      ("rm", .function 1 0), ("mm", .function 1 0)] }

/-- A model carrying underscore-prefixed names in the places the source
does not filter them: a plain field `_secret`, reverse accessor names
`_rel` and `_many`, and a property `_hidden`. -/
def underscore_model : PyClass :=
  { meta := some
      { get_fields :=
          [ { name := "_secret", auto_created := false, concrete := true,
              many_to_many := false, rel := none, accessor_name := "",
              field_rel := ⟨false, false⟩ },
            { name := "rev1", auto_created := true, concrete := false,
              many_to_many := false, rel := none, accessor_name := "_rel",
              field_rel := ⟨false, false⟩ },
            { name := "rev2", auto_created := true, concrete := false,
              many_to_many := false, rel := none, accessor_name := "_many",
              field_rel := ⟨false, true⟩ } ],
        virtual_fields := [] },
    members := [("_hidden", .prop), ("color", .plainValue)] }

/-- Erase the `virtual_fields` list of a model's `_meta` (the fields the
generic-foreign-key scan would see), leaving everything else intact. -/
def strip_virtual (c : PyClass) : PyClass :=
  { c with meta := c.meta.map (fun opts => { opts with virtual_fields := [] }) }

def strip_virtual_ref : ModelRef → ModelRef
  | .cls c => .cls (strip_virtual c)
  | .inst c => .inst (strip_virtual c)

/-! ## Generic fold helpers -/

theorem foldl_invariant {α β : Type} (f : β → α → β) (P : β → Prop)
    (l : List α) (s : β) (h0 : P s) (hstep : ∀ s a, P s → P (f s a)) :
    P (l.foldl f s) := by
  induction l generalizing s with
  | nil => exact h0
  | cons a t ih => exact ih _ (hstep _ _ h0)

theorem foldl_proj_const {α : Type} (f : InspectState → α → InspectState)
    (g : InspectState → Finset String) (h : ∀ s a, g (f s a) = g s)
    (l : List α) (s : InspectState) : g (l.foldl f s) = g s := by
  induction l generalizing s with
  | nil => rfl
  | cons a t ih => exact (ih _).trans (h _ _)

theorem foldl_proj_mono {α : Type} (f : InspectState → α → InspectState)
    (g : InspectState → Finset String) (h : ∀ s a, g s ⊆ g (f s a))
    (l : List α) (s : InspectState) : g s ⊆ g (l.foldl f s) := by
  induction l generalizing s with
  | nil => exact Finset.Subset.refl _
  | cons a t ih => exact (h s a).trans (ih _)

/-- If processing element `a` always puts `x` into component `g` of the
state (under a step-preserved side condition `Q`), and `g` only grows, then
after folding over any list containing `a` the component holds `x`. -/
theorem foldl_establishes {α : Type} (f : InspectState → α → InspectState)
    (g : InspectState → Finset String) (Q : InspectState → Prop)
    (hQ : ∀ s a, Q s → Q (f s a)) (hmono : ∀ s a, g s ⊆ g (f s a))
    (a : α) (x : String) (hx : ∀ s, Q s → x ∈ g (f s a)) :
    ∀ (l : List α) (s : InspectState), a ∈ l → Q s → x ∈ g (l.foldl f s) := by
  intro l
  induction l with
  | nil => intro s h; exact absurd h (List.not_mem_nil a)
  | cons b t ih =>
    intro s hmem hQs
    rcases List.mem_cons.mp hmem with hb | ht
    · subst hb
      exact foldl_proj_mono f g hmono t _ (hx s hQs)
    · exact ih _ ht (hQ s b hQs)

/-! ## `_add_item` and per-step preservation lemmas -/

lemma initState_itemsInvariant : itemsInvariant initState := by
  simp [itemsInvariant, initState]

lemma add_item_itemsInvariant (st : InspectState) (x : String) (cat : Category)
    (h : itemsInvariant st) : itemsInvariant (add_item st x cat) := by
  cases cat <;>
    (simp only [itemsInvariant, add_item] at h ⊢
     rw [h]
     ext y
     simp [Finset.mem_insert, Finset.mem_union])

lemma fields_step_attributes (entries : List FieldEntry) (st : InspectState)
    (n : String) : (fields_step entries st n).attributes = st.attributes := by
  unfold fields_step
  cases get_field entries n with
  | none => rfl
  | some f => dsimp only; (repeat' split) <;> rfl

lemma fields_step_methods (entries : List FieldEntry) (st : InspectState)
    (n : String) : (fields_step entries st n).methods = st.methods := by
  unfold fields_step
  cases get_field entries n with
  | none => rfl
  | some f => dsimp only; (repeat' split) <;> rfl

lemma fields_step_properties (entries : List FieldEntry) (st : InspectState)
    (n : String) : (fields_step entries st n).properties = st.properties := by
  unfold fields_step
  cases get_field entries n with
  | none => rfl
  | some f => dsimp only; (repeat' split) <;> rfl

lemma fields_step_fields_mono (entries : List FieldEntry) (st : InspectState)
    (n : String) : st.fields ⊆ (fields_step entries st n).fields := by
  unfold fields_step
  cases get_field entries n with
  | none => exact Finset.Subset.refl _
  | some f =>
    dsimp only
    (repeat' split) <;>
      first
        | exact Finset.subset_insert _ _
        | exact Finset.Subset.refl _

lemma fields_step_relation_mono (entries : List FieldEntry) (st : InspectState)
    (n : String) : st.relation_fields ⊆ (fields_step entries st n).relation_fields := by
  unfold fields_step
  cases get_field entries n with
  | none => exact Finset.Subset.refl _
  | some f =>
    dsimp only
    (repeat' split) <;>
      first
        | exact Finset.subset_insert _ _
        | exact Finset.Subset.refl _

lemma fields_step_many_mono (entries : List FieldEntry) (st : InspectState)
    (n : String) : st.many_fields ⊆ (fields_step entries st n).many_fields := by
  unfold fields_step
  cases get_field entries n with
  | none => exact Finset.Subset.refl _
  | some f =>
    dsimp only
    (repeat' split) <;>
      first
        | exact Finset.subset_insert _ _
        | exact Finset.Subset.refl _

lemma fields_step_itemsInvariant (entries : List FieldEntry) (st : InspectState)
    (n : String) (h : itemsInvariant st) : itemsInvariant (fields_step entries st n) := by
  unfold fields_step
  cases get_field entries n with
  | none => exact h
  | some f =>
    dsimp only
    (repeat' split) <;> exact add_item_itemsInvariant _ _ _ h

lemma virtual_step_fields (st : InspectState) (f : VirtualField) :
    (virtual_step st f).fields = st.fields := by
  unfold virtual_step; split <;> rfl

lemma virtual_step_many (st : InspectState) (f : VirtualField) :
    (virtual_step st f).many_fields = st.many_fields := by
  unfold virtual_step; split <;> rfl

lemma virtual_step_relation_mono (st : InspectState) (f : VirtualField) :
    st.relation_fields ⊆ (virtual_step st f).relation_fields := by
  unfold virtual_step
  split
  · exact Finset.subset_insert _ _
  · exact Finset.Subset.refl _

lemma virtual_step_attributes (st : InspectState) (f : VirtualField) :
    (virtual_step st f).attributes = st.attributes := by
  unfold virtual_step; split <;> rfl

lemma virtual_step_methods (st : InspectState) (f : VirtualField) :
    (virtual_step st f).methods = st.methods := by
  unfold virtual_step; split <;> rfl

lemma virtual_step_properties (st : InspectState) (f : VirtualField) :
    (virtual_step st f).properties = st.properties := by
  unfold virtual_step; split <;> rfl

lemma virtual_step_itemsInvariant (st : InspectState) (f : VirtualField)
    (h : itemsInvariant st) : itemsInvariant (virtual_step st f) := by
  unfold virtual_step
  split
  · exact add_item_itemsInvariant _ _ _ h
  · exact h

lemma attrsOK_of_eq (c : PyClass) {s s' : InspectState}
    (ha : s'.attributes = s.attributes) (hf : s'.fields = s.fields)
    (h : attrsOK c s) : attrsOK c s' := by
  intro a hmem
  rw [ha] at hmem
  rw [hf]
  exact h a hmem

lemma methodsOK_of_eq (c : PyClass) {s s' : InspectState}
    (hm : s'.methods = s.methods) (hf : s'.fields = s.fields)
    (h : methodsOK c s) : methodsOK c s' := by
  intro m hmem
  rw [hm] at hmem
  rw [hf]
  exact h m hmem

lemma propsOK_of_eq (c : PyClass) {s s' : InspectState}
    (hp : s'.properties = s.properties) (h : propsOK c s) : propsOK c s' := by
  intro p hmem
  rw [hp] at hmem
  exact h p hmem

lemma attributes_step_fields (env : Env) (c : PyClass) (st : InspectState)
    (a : String) : (attributes_step env c st a).fields = st.fields := by
  unfold attributes_step
  dsimp only
  (repeat' split) <;> rfl

lemma attributes_step_relation (env : Env) (c : PyClass) (st : InspectState)
    (a : String) : (attributes_step env c st a).relation_fields = st.relation_fields := by
  unfold attributes_step
  dsimp only
  (repeat' split) <;> rfl

lemma attributes_step_many (env : Env) (c : PyClass) (st : InspectState)
    (a : String) : (attributes_step env c st a).many_fields = st.many_fields := by
  unfold attributes_step
  dsimp only
  (repeat' split) <;> rfl

lemma attributes_step_methods (env : Env) (c : PyClass) (st : InspectState)
    (a : String) : (attributes_step env c st a).methods = st.methods := by
  unfold attributes_step
  dsimp only
  (repeat' split) <;> rfl

lemma attributes_step_properties (env : Env) (c : PyClass) (st : InspectState)
    (a : String) : (attributes_step env c st a).properties = st.properties := by
  unfold attributes_step
  dsimp only
  (repeat' split) <;> rfl

lemma attributes_step_itemsInvariant (env : Env) (c : PyClass) (st : InspectState)
    (a : String) (h : itemsInvariant st) : itemsInvariant (attributes_step env c st a) := by
  unfold attributes_step
  dsimp only
  (repeat' split) <;>
    first
      | exact add_item_itemsInvariant _ _ _ h
      | exact h

lemma attributes_step_attrsOK (env : Env) (c : PyClass) (st : InspectState)
    (a : String) (h : attrsOK c st) : attrsOK c (attributes_step env c st a) := by
  unfold attributes_step
  split
  · exact h
  · dsimp only
    split
    · exact h
    · split
      · exact h
      · rename_i hguard _ hnot
        intro x hx
        simp only [add_item] at hx ⊢
        rcases Finset.mem_insert.mp hx with hxa | hxold
        · subst hxa
          have hg : startswith_underscore x = false ∧ x ∉ st.fields := by
            simpa using hguard
          exact ⟨hg.1, hg.2, by simpa using hnot⟩
        · exact h x hxold

lemma methods_step_fields (c : PyClass) (st : InspectState) (m : String) :
    (methods_step c st m).fields = st.fields := by
  unfold methods_step
  (repeat' split) <;> rfl

lemma methods_step_relation (c : PyClass) (st : InspectState) (m : String) :
    (methods_step c st m).relation_fields = st.relation_fields := by
  unfold methods_step
  (repeat' split) <;> rfl

lemma methods_step_many (c : PyClass) (st : InspectState) (m : String) :
    (methods_step c st m).many_fields = st.many_fields := by
  unfold methods_step
  (repeat' split) <;> rfl

lemma methods_step_attributes (c : PyClass) (st : InspectState) (m : String) :
    (methods_step c st m).attributes = st.attributes := by
  unfold methods_step
  (repeat' split) <;> rfl

lemma methods_step_properties (c : PyClass) (st : InspectState) (m : String) :
    (methods_step c st m).properties = st.properties := by
  unfold methods_step
  (repeat' split) <;> rfl

lemma methods_step_methods_mono (c : PyClass) (st : InspectState) (m : String) :
    st.methods ⊆ (methods_step c st m).methods := by
  unfold methods_step
  (repeat' split) <;>
    first
      | exact Finset.subset_insert _ _
      | exact Finset.Subset.refl _

lemma methods_step_itemsInvariant (c : PyClass) (st : InspectState) (m : String)
    (h : itemsInvariant st) : itemsInvariant (methods_step c st m) := by
  unfold methods_step
  (repeat' split) <;>
    first
      | exact add_item_itemsInvariant _ _ _ h
      | exact h

lemma methods_step_methodsOK (c : PyClass) (st : InspectState) (m : String)
    (h : methodsOK c st) : methodsOK c (methods_step c st m) := by
  unfold methods_step
  split
  · exact h
  · split
    · exact h
    · split
      · rename_i hguard hden hmwa
        intro x hx
        simp only [add_item] at hx ⊢
        rcases Finset.mem_insert.mp hx with hxm | hxold
        · subst hxm
          have hg : startswith_underscore x = false ∧ x ∉ st.fields := by
            simpa using hguard
          exact ⟨hg.1, hg.2, hden, hmwa⟩
        · exact h x hxold
      · exact h

lemma properties_step_fields (c : PyClass) (st : InspectState) (n : String) :
    (properties_step c st n).fields = st.fields := by
  unfold properties_step
  (repeat' split) <;> rfl

lemma properties_step_relation (c : PyClass) (st : InspectState) (n : String) :
    (properties_step c st n).relation_fields = st.relation_fields := by
  unfold properties_step
  (repeat' split) <;> rfl

lemma properties_step_many (c : PyClass) (st : InspectState) (n : String) :
    (properties_step c st n).many_fields = st.many_fields := by
  unfold properties_step
  (repeat' split) <;> rfl

lemma properties_step_attributes (c : PyClass) (st : InspectState) (n : String) :
    (properties_step c st n).attributes = st.attributes := by
  unfold properties_step
  (repeat' split) <;> rfl

lemma properties_step_methods (c : PyClass) (st : InspectState) (n : String) :
    (properties_step c st n).methods = st.methods := by
  unfold properties_step
  (repeat' split) <;> rfl

lemma properties_step_itemsInvariant (c : PyClass) (st : InspectState) (n : String)
    (h : itemsInvariant st) : itemsInvariant (properties_step c st n) := by
  unfold properties_step
  split
  · exact add_item_itemsInvariant _ _ _ h
  · exact h

lemma properties_step_propsOK (c : PyClass) (st : InspectState) (n : String)
    (h : propsOK c st) : propsOK c (properties_step c st n) := by
  unfold properties_step
  split
  · rename_i hprop
    intro x hx
    simp only [add_item] at hx
    rcases Finset.mem_insert.mp hx with hxn | hxold
    · subst hxn
      exact hprop
    · exact h x hxold
  · exact h

/-! ## Pass-level lemmas -/

lemma set_attributes_empty_eq (st : InspectState) (h : st.attributes = ∅) :
    ({ st with attributes := ∅ } : InspectState) = st := by
  cases st
  subst h
  rfl

lemma set_methods_empty_eq (st : InspectState) (h : st.methods = ∅) :
    ({ st with methods := ∅ } : InspectState) = st := by
  cases st
  subst h
  rfl

lemma set_properties_empty_eq (st : InspectState) (h : st.properties = ∅) :
    ({ st with properties := ∅ } : InspectState) = st := by
  cases st
  subst h
  rfl

lemma attrsOK_of_empty (c : PyClass) (st : InspectState)
    (h : st.attributes = ∅) : attrsOK c st := by
  intro a ha
  rw [h] at ha
  exact absurd ha (Finset.not_mem_empty a)

lemma methodsOK_of_empty (c : PyClass) (st : InspectState)
    (h : st.methods = ∅) : methodsOK c st := by
  intro m hm
  rw [h] at hm
  exact absurd hm (Finset.not_mem_empty m)

lemma propsOK_of_empty (c : PyClass) (st : InspectState)
    (h : st.properties = ∅) : propsOK c st := by
  intro p hp
  rw [h] at hp
  exact absurd hp (Finset.not_mem_empty p)

lemma update_fields_attributes (env : Env) (c : PyClass) (st : InspectState) :
    (update_fields env c st).attributes = st.attributes := by
  unfold update_fields
  cases c.meta with
  | none => rfl
  | some opts =>
    dsimp only
    split
    · rw [foldl_proj_const virtual_step _ virtual_step_attributes,
        foldl_proj_const _ _ (fields_step_attributes opts.get_fields)]
    · rw [foldl_proj_const _ _ (fields_step_attributes opts.get_fields)]

lemma update_fields_methods (env : Env) (c : PyClass) (st : InspectState) :
    (update_fields env c st).methods = st.methods := by
  unfold update_fields
  cases c.meta with
  | none => rfl
  | some opts =>
    dsimp only
    split
    · rw [foldl_proj_const virtual_step _ virtual_step_methods,
        foldl_proj_const _ _ (fields_step_methods opts.get_fields)]
    · rw [foldl_proj_const _ _ (fields_step_methods opts.get_fields)]

lemma update_fields_properties (env : Env) (c : PyClass) (st : InspectState) :
    (update_fields env c st).properties = st.properties := by
  unfold update_fields
  cases c.meta with
  | none => rfl
  | some opts =>
    dsimp only
    split
    · rw [foldl_proj_const virtual_step _ virtual_step_properties,
        foldl_proj_const _ _ (fields_step_properties opts.get_fields)]
    · rw [foldl_proj_const _ _ (fields_step_properties opts.get_fields)]

lemma update_fields_init_itemsInvariant (env : Env) (c : PyClass) :
    itemsInvariant (update_fields env c initState) := by
  unfold update_fields
  cases c.meta with
  | none => exact initState_itemsInvariant
  | some opts =>
    dsimp only
    split
    · exact foldl_invariant virtual_step itemsInvariant _ _
        (foldl_invariant (fields_step opts.get_fields) itemsInvariant _ _
          initState_itemsInvariant (fields_step_itemsInvariant opts.get_fields))
        virtual_step_itemsInvariant
    · exact foldl_invariant (fields_step opts.get_fields) itemsInvariant _ _
        initState_itemsInvariant (fields_step_itemsInvariant opts.get_fields)

lemma update_attributes_fields (env : Env) (c : PyClass) (st : InspectState) :
    (update_attributes env c st).fields = st.fields := by
  unfold update_attributes
  rw [foldl_proj_const _ _ (attributes_step_fields env c)]

lemma update_attributes_relation (env : Env) (c : PyClass) (st : InspectState) :
    (update_attributes env c st).relation_fields = st.relation_fields := by
  unfold update_attributes
  rw [foldl_proj_const _ _ (attributes_step_relation env c)]

lemma update_attributes_many (env : Env) (c : PyClass) (st : InspectState) :
    (update_attributes env c st).many_fields = st.many_fields := by
  unfold update_attributes
  rw [foldl_proj_const _ _ (attributes_step_many env c)]

lemma update_attributes_methods (env : Env) (c : PyClass) (st : InspectState) :
    (update_attributes env c st).methods = st.methods := by
  unfold update_attributes
  rw [foldl_proj_const _ _ (attributes_step_methods env c)]

lemma update_attributes_properties (env : Env) (c : PyClass) (st : InspectState) :
    (update_attributes env c st).properties = st.properties := by
  unfold update_attributes
  rw [foldl_proj_const _ _ (attributes_step_properties env c)]

lemma update_methods_fields (c : PyClass) (st : InspectState) :
    (update_methods c st).fields = st.fields := by
  unfold update_methods
  rw [foldl_proj_const _ _ (methods_step_fields c)]

lemma update_methods_relation (c : PyClass) (st : InspectState) :
    (update_methods c st).relation_fields = st.relation_fields := by
  unfold update_methods
  rw [foldl_proj_const _ _ (methods_step_relation c)]

lemma update_methods_many (c : PyClass) (st : InspectState) :
    (update_methods c st).many_fields = st.many_fields := by
  unfold update_methods
  rw [foldl_proj_const _ _ (methods_step_many c)]

lemma update_methods_attributes (c : PyClass) (st : InspectState) :
    (update_methods c st).attributes = st.attributes := by
  unfold update_methods
  rw [foldl_proj_const _ _ (methods_step_attributes c)]

lemma update_methods_properties (c : PyClass) (st : InspectState) :
    (update_methods c st).properties = st.properties := by
  unfold update_methods
  rw [foldl_proj_const _ _ (methods_step_properties c)]

lemma update_properties_fields (c : PyClass) (st : InspectState) :
    (update_properties c st).fields = st.fields := by
  unfold update_properties
  rw [foldl_proj_const _ _ (properties_step_fields c)]

lemma update_properties_relation (c : PyClass) (st : InspectState) :
    (update_properties c st).relation_fields = st.relation_fields := by
  unfold update_properties
  rw [foldl_proj_const _ _ (properties_step_relation c)]

lemma update_properties_many (c : PyClass) (st : InspectState) :
    (update_properties c st).many_fields = st.many_fields := by
  unfold update_properties
  rw [foldl_proj_const _ _ (properties_step_many c)]

lemma update_properties_attributes (c : PyClass) (st : InspectState) :
    (update_properties c st).attributes = st.attributes := by
  unfold update_properties
  rw [foldl_proj_const _ _ (properties_step_attributes c)]

lemma update_properties_methods (c : PyClass) (st : InspectState) :
    (update_properties c st).methods = st.methods := by
  unfold update_properties
  rw [foldl_proj_const _ _ (properties_step_methods c)]

/-- The four invariants of a fully constructed inspector: the union
invariant of `items`, and the guard conditions recorded for `attributes`,
`methods` and `properties`. -/
theorem inspect_invariants (env : Env) (ref : ModelRef) :
    itemsInvariant (inspectModel env ref).state ∧
    attrsOK (resolveModel ref) (inspectModel env ref).state ∧
    methodsOK (resolveModel ref) (inspectModel env ref).state ∧
    propsOK (resolveModel ref) (inspectModel env ref).state := by
  have hstate : (inspectModel env ref).state =
      update_properties (resolveModel ref)
        (update_methods (resolveModel ref)
          (update_attributes env (resolveModel ref)
            (update_fields env (resolveModel ref) initState))) := rfl
  rw [hstate]
  generalize hc : resolveModel ref = c
  -- stage 1: after `update_fields`
  set st1 : InspectState := update_fields env c initState with hst1
  have h1items : itemsInvariant st1 := update_fields_init_itemsInvariant env c
  have h1attr : st1.attributes = ∅ := update_fields_attributes env c initState
  have h1meth : st1.methods = ∅ := update_fields_methods env c initState
  have h1prop : st1.properties = ∅ := update_fields_properties env c initState
  -- stage 2: after `update_attributes`
  set st2 : InspectState := update_attributes env c st1 with hst2
  have h2eq : st2 = c.dirNames.foldl (attributes_step env c) st1 := by
    rw [hst2]
    unfold update_attributes
    rw [set_attributes_empty_eq st1 h1attr]
  have h2items : itemsInvariant st2 := by
    rw [h2eq]
    exact foldl_invariant _ itemsInvariant _ _ h1items
      (attributes_step_itemsInvariant env c)
  have h2attrsOK : attrsOK c st2 := by
    rw [h2eq]
    exact foldl_invariant _ (attrsOK c) _ _ (attrsOK_of_empty c st1 h1attr)
      (attributes_step_attrsOK env c)
  have h2meth : st2.methods = ∅ := by
    rw [hst2, update_attributes_methods]
    exact h1meth
  have h2prop : st2.properties = ∅ := by
    rw [hst2, update_attributes_properties]
    exact h1prop
  -- stage 3: after `update_methods`
  set st3 : InspectState := update_methods c st2 with hst3
  have h3eq : st3 = c.dirNames.foldl (methods_step c) st2 := by
    rw [hst3]
    unfold update_methods
    rw [set_methods_empty_eq st2 h2meth]
  have h3items : itemsInvariant st3 := by
    rw [h3eq]
    exact foldl_invariant _ itemsInvariant _ _ h2items (methods_step_itemsInvariant c)
  have h3attrsOK : attrsOK c st3 :=
    attrsOK_of_eq c (update_methods_attributes c st2) (update_methods_fields c st2)
      h2attrsOK
  have h3methOK : methodsOK c st3 := by
    rw [h3eq]
    exact foldl_invariant _ (methodsOK c) _ _ (methodsOK_of_empty c st2 h2meth)
      (methods_step_methodsOK c)
  have h3prop : st3.properties = ∅ := by
    rw [hst3, update_methods_properties]
    exact h2prop
  -- stage 4: after `update_properties`
  have h4eq : update_properties c st3 = c.dirNames.foldl (properties_step c) st3 := by
    unfold update_properties
    rw [set_properties_empty_eq st3 h3prop]
  have h4items : itemsInvariant (update_properties c st3) := by
    rw [h4eq]
    exact foldl_invariant _ itemsInvariant _ _ h3items (properties_step_itemsInvariant c)
  have h4attrsOK : attrsOK c (update_properties c st3) :=
    attrsOK_of_eq c (update_properties_attributes c st3) (update_properties_fields c st3)
      h3attrsOK
  have h4methOK : methodsOK c (update_properties c st3) :=
    methodsOK_of_eq c (update_properties_methods c st3) (update_properties_fields c st3)
      h3methOK
  have h4propsOK : propsOK c (update_properties c st3) := by
    rw [h4eq]
    exact foldl_invariant _ (propsOK c) _ _ (propsOK_of_empty c st3 h3prop)
      (properties_step_propsOK c)
  exact ⟨h4items, h4attrsOK, h4methOK, h4propsOK⟩

/-! ## Field-classification lemmas -/

lemma get_field_eq_of_nodup (entries : List FieldEntry)
    (hnd : (entries.map FieldEntry.name).Nodup) (e : FieldEntry)
    (he : e ∈ entries) : get_field entries e.name = some e := by
  induction entries with
  | nil => exact absurd he (List.not_mem_nil e)
  | cons b t ih =>
    rcases List.mem_cons.mp he with rfl | ht
    · simp [get_field]
    · have hbt : b.name ∉ t.map FieldEntry.name ∧ (t.map FieldEntry.name).Nodup := by
        rw [List.map_cons] at hnd
        exact List.nodup_cons.mp hnd
      have hne : (b.name == e.name) = false := by
        apply beq_eq_false_iff_ne.mpr
        intro heq
        exact hbt.1 (heq ▸ List.mem_map_of_mem FieldEntry.name ht)
      unfold get_field at ih ⊢
      rw [List.find?_cons, hne]
      exact ih hbt.2 ht

lemma update_fields_fields_eq (env : Env) (c : PyClass) (opts : Meta)
    (hmeta : c.meta = some opts) :
    (update_fields env c initState).fields =
      ((opts.get_fields.map FieldEntry.name).foldl (fields_step opts.get_fields)
        initState).fields := by
  unfold update_fields
  rw [hmeta]
  dsimp only
  split
  · rw [foldl_proj_const virtual_step _ virtual_step_fields]
    rfl
  · rfl

lemma update_fields_many_eq (env : Env) (c : PyClass) (opts : Meta)
    (hmeta : c.meta = some opts) :
    (update_fields env c initState).many_fields =
      ((opts.get_fields.map FieldEntry.name).foldl (fields_step opts.get_fields)
        initState).many_fields := by
  unfold update_fields
  rw [hmeta]
  dsimp only
  split
  · rw [foldl_proj_const virtual_step _ virtual_step_many]
    rfl
  · rfl

lemma update_fields_relation_superset (env : Env) (c : PyClass) (opts : Meta)
    (hmeta : c.meta = some opts) :
    ((opts.get_fields.map FieldEntry.name).foldl (fields_step opts.get_fields)
        initState).relation_fields ⊆ (update_fields env c initState).relation_fields := by
  unfold update_fields
  rw [hmeta]
  dsimp only
  split
  · exact foldl_proj_mono virtual_step _ virtual_step_relation_mono _ _
  · exact Finset.Subset.refl _

/-- Per-entry behaviour of `update_fields`: an entry of `get_fields()`
lands in the category the branching of lines 82–97 dictates (stated for a
model whose field names are distinct, as Django's `_meta` guarantees). -/
lemma update_fields_classifies (env : Env) (c : PyClass) (opts : Meta) (e : FieldEntry)
    (hmeta : c.meta = some opts)
    (hnd : (opts.get_fields.map FieldEntry.name).Nodup)
    (he : e ∈ opts.get_fields) :
    ((!e.auto_created || e.concrete) = false →
       (e.field_rel.multiple = true →
          e.accessor_name ∈ (update_fields env c initState).many_fields) ∧
       (e.field_rel.multiple = false →
          e.accessor_name ∈ (update_fields env c initState).relation_fields)) ∧
    ((!e.auto_created || e.concrete) = true →
       (e.rel = none → e.name ∈ (update_fields env c initState).fields) ∧
       (∀ r, e.rel = some r →
          (r.hasThrough = true → e.name ∈ (update_fields env c initState).many_fields) ∧
          (r.hasThrough = false →
            e.name ∈ (update_fields env c initState).relation_fields))) := by
  have hget : get_field opts.get_fields e.name = some e :=
    get_field_eq_of_nodup opts.get_fields hnd e he
  have hname : e.name ∈ opts.get_fields.map FieldEntry.name :=
    List.mem_map_of_mem FieldEntry.name he
  constructor
  · intro hdir
    constructor
    · intro hmult
      rw [update_fields_many_eq env c opts hmeta]
      refine foldl_establishes (fields_step opts.get_fields)
        (fun s => s.many_fields) (fun _ => True) (fun _ _ _ => trivial)
        (fields_step_many_mono opts.get_fields) e.name e.accessor_name
        (fun s _ => ?_) _ initState hname trivial
      unfold fields_step
      rw [hget]
      simp only [hdir, hmult, Bool.not_false, if_true, add_item]
      exact Finset.mem_insert_self _ _
    · intro hmult
      apply update_fields_relation_superset env c opts hmeta
      refine foldl_establishes (fields_step opts.get_fields)
        (fun s => s.relation_fields) (fun _ => True) (fun _ _ _ => trivial)
        (fields_step_relation_mono opts.get_fields) e.name e.accessor_name
        (fun s _ => ?_) _ initState hname trivial
      unfold fields_step
      rw [hget]
      simp only [hdir, hmult, Bool.not_false, if_true, Bool.false_eq_true, if_false,
        add_item]
      exact Finset.mem_insert_self _ _
  · intro hdir
    constructor
    · intro hrel
      rw [update_fields_fields_eq env c opts hmeta]
      refine foldl_establishes (fields_step opts.get_fields)
        (fun s => s.fields) (fun _ => True) (fun _ _ _ => trivial)
        (fields_step_fields_mono opts.get_fields) e.name e.name
        (fun s _ => ?_) _ initState hname trivial
      unfold fields_step
      rw [hget]
      simp only [hdir, hrel, Bool.not_true, Bool.false_eq_true, if_false, add_item]
      exact Finset.mem_insert_self _ _
    · intro r hrel
      constructor
      · intro hthrough
        rw [update_fields_many_eq env c opts hmeta]
        refine foldl_establishes (fields_step opts.get_fields)
          (fun s => s.many_fields) (fun _ => True) (fun _ _ _ => trivial)
          (fields_step_many_mono opts.get_fields) e.name e.name
          (fun s _ => ?_) _ initState hname trivial
        unfold fields_step
        rw [hget]
        simp only [hdir, hrel, hthrough, Bool.not_true, Bool.false_eq_true, if_false,
          if_true, add_item]
        exact Finset.mem_insert_self _ _
      · intro hthrough
        apply update_fields_relation_superset env c opts hmeta
        refine foldl_establishes (fields_step opts.get_fields)
          (fun s => s.relation_fields) (fun _ => True) (fun _ _ _ => trivial)
          (fields_step_relation_mono opts.get_fields) e.name e.name
          (fun s _ => ?_) _ initState hname trivial
        unfold fields_step
        rw [hget]
        simp only [hdir, hrel, hthrough, Bool.not_true, Bool.false_eq_true, if_false,
          add_item]
        exact Finset.mem_insert_self _ _

/-! ## Relations between the member-value predicates (facts of Python's
`inspect` module recorded on the abstracted values) -/

lemma mwa_implies_aba (v : MemberValue) (h : is_method_without_args v = true) :
    matches_all_but_attributes v = true := by
  cases v <;> simp_all [is_method_without_args, matches_all_but_attributes]

lemma prop_implies_aba (v : MemberValue) (h : is_property_instance v = true) :
    matches_all_but_attributes v = true := by
  cases v <;> simp_all [is_property_instance, matches_all_but_attributes]

lemma prop_not_mwa (v : MemberValue) (h : is_property_instance v = true) :
    is_method_without_args v = false := by
  cases v <;> simp_all [is_property_instance, is_method_without_args]

/-! ## Final-state projections and the methods-pass establishment lemma -/

lemma inspect_state_fields (env : Env) (ref : ModelRef) :
    (inspectModel env ref).state.fields =
      (update_fields env (resolveModel ref) initState).fields := by
  show (update_properties (resolveModel ref)
      (update_methods (resolveModel ref)
        (update_attributes env (resolveModel ref)
          (update_fields env (resolveModel ref) initState)))).fields = _
  rw [update_properties_fields, update_methods_fields, update_attributes_fields]

lemma inspect_state_relation (env : Env) (ref : ModelRef) :
    (inspectModel env ref).state.relation_fields =
      (update_fields env (resolveModel ref) initState).relation_fields := by
  show (update_properties (resolveModel ref)
      (update_methods (resolveModel ref)
        (update_attributes env (resolveModel ref)
          (update_fields env (resolveModel ref) initState)))).relation_fields = _
  rw [update_properties_relation, update_methods_relation, update_attributes_relation]

lemma inspect_state_many (env : Env) (ref : ModelRef) :
    (inspectModel env ref).state.many_fields =
      (update_fields env (resolveModel ref) initState).many_fields := by
  show (update_properties (resolveModel ref)
      (update_methods (resolveModel ref)
        (update_attributes env (resolveModel ref)
          (update_fields env (resolveModel ref) initState)))).many_fields = _
  rw [update_properties_many, update_methods_many, update_attributes_many]

lemma inspect_state_methods (env : Env) (ref : ModelRef) :
    (inspectModel env ref).state.methods =
      (update_methods (resolveModel ref)
        (update_attributes env (resolveModel ref)
          (update_fields env (resolveModel ref) initState))).methods := by
  show (update_properties (resolveModel ref)
      (update_methods (resolveModel ref)
        (update_attributes env (resolveModel ref)
          (update_fields env (resolveModel ref) initState)))).methods = _
  rw [update_properties_methods]

/-- A surviving name whose value passes `is_method_without_args` is put
into `methods` by `update_methods`. -/
lemma update_methods_establishes (c : PyClass) (st : InspectState) (m : String)
    (hdir : m ∈ c.dirNames) (h1 : startswith_underscore m = false)
    (h2 : m ∉ st.fields) (h3 : m ∉ DJANGO_GENERATED_METHODS)
    (h4 : is_method_without_args (c.getattrOrNone m) = true) :
    m ∈ (update_methods c st).methods := by
  unfold update_methods
  refine foldl_establishes (methods_step c) (fun s => s.methods)
    (fun s => s.fields = st.fields)
    (fun s a hq => by
      show (methods_step c s a).fields = st.fields
      rw [methods_step_fields]
      exact hq)
    (methods_step_methods_mono c) m m (fun s hq => ?_) c.dirNames _ hdir rfl
  have hq' : s.fields = st.fields := hq
  show m ∈ (methods_step c s m).methods
  unfold methods_step
  rw [hq']
  rw [if_neg (by simp [h1, h2]), if_neg (by simpa using h3), if_pos h4]
  exact Finset.mem_insert_self _ _

/-! ## Claim theorems -/

/-- C1, counterexample: the six category sets are NOT pairwise disjoint.
On `overlap_model` every pair outside
{attributes,methods} × {fields, each other, properties} overlaps:
`pf` is both a plain field and a reverse-accessor relation field, `pf2` a
field and a many field, `dup` a relation and a many field, `fp`/`pr`/`mp`
are classified fields/relations/manys whose values are properties,
`ra`/`ma` are relation/many names that are also plain attributes, and
`rm`/`mm` are relation/many names that are also zero-argument methods. -/
theorem C1_pairwise_disjoint_counterexample :
    ("pf" ∈ (inspectModel ⟨true, true⟩ (.cls overlap_model)).state.fields ∧
     "pf" ∈ (inspectModel ⟨true, true⟩ (.cls overlap_model)).state.relation_fields) ∧
    ("pf2" ∈ (inspectModel ⟨true, true⟩ (.cls overlap_model)).state.fields ∧
     "pf2" ∈ (inspectModel ⟨true, true⟩ (.cls overlap_model)).state.many_fields) ∧
    ("dup" ∈ (inspectModel ⟨true, true⟩ (.cls overlap_model)).state.relation_fields ∧
     "dup" ∈ (inspectModel ⟨true, true⟩ (.cls overlap_model)).state.many_fields) ∧
    ("fp" ∈ (inspectModel ⟨true, true⟩ (.cls overlap_model)).state.fields ∧
     "fp" ∈ (inspectModel ⟨true, true⟩ (.cls overlap_model)).state.properties) ∧
    ("pr" ∈ (inspectModel ⟨true, true⟩ (.cls overlap_model)).state.relation_fields ∧
     "pr" ∈ (inspectModel ⟨true, true⟩ (.cls overlap_model)).state.properties) ∧
    ("mp" ∈ (inspectModel ⟨true, true⟩ (.cls overlap_model)).state.many_fields ∧
     "mp" ∈ (inspectModel ⟨true, true⟩ (.cls overlap_model)).state.properties) ∧
    ("ra" ∈ (inspectModel ⟨true, true⟩ (.cls overlap_model)).state.relation_fields ∧
     "ra" ∈ (inspectModel ⟨true, true⟩ (.cls overlap_model)).state.attributes) ∧
    ("ma" ∈ (inspectModel ⟨true, true⟩ (.cls overlap_model)).state.many_fields ∧
     "ma" ∈ (inspectModel ⟨true, true⟩ (.cls overlap_model)).state.attributes) ∧
    ("rm" ∈ (inspectModel ⟨true, true⟩ (.cls overlap_model)).state.relation_fields ∧
     "rm" ∈ (inspectModel ⟨true, true⟩ (.cls overlap_model)).state.methods) ∧
    ("mm" ∈ (inspectModel ⟨true, true⟩ (.cls overlap_model)).state.many_fields ∧
     "mm" ∈ (inspectModel ⟨true, true⟩ (.cls overlap_model)).state.methods) :=
  ⟨⟨by decide, by decide⟩, ⟨by decide, by decide⟩, ⟨by decide, by decide⟩,
   ⟨by decide, by decide⟩, ⟨by decide, by decide⟩, ⟨by decide, by decide⟩,
   ⟨by decide, by decide⟩, ⟨by decide, by decide⟩, ⟨by decide, by decide⟩,
   ⟨by decide, by decide⟩⟩

/-- C1 (amended): for every model and import environment, `items` equals
the union of the six category sets; and of the fifteen pairs of category
sets exactly these are disjoint by construction: attributes/fields,
methods/fields, attributes/methods, attributes/properties and
methods/properties.  (The remaining pairs can overlap, as the
counterexample shows.) -/
theorem C1_items_union_amended (env : Env) (ref : ModelRef) :
    (inspectModel env ref).state.items =
      (inspectModel env ref).state.fields ∪
      (inspectModel env ref).state.relation_fields ∪
      (inspectModel env ref).state.many_fields ∪
      (inspectModel env ref).state.attributes ∪
      (inspectModel env ref).state.methods ∪
      (inspectModel env ref).state.properties ∧
    (inspectModel env ref).state.attributes ∩ (inspectModel env ref).state.fields = ∅ ∧
    (inspectModel env ref).state.methods ∩ (inspectModel env ref).state.fields = ∅ ∧
    (inspectModel env ref).state.attributes ∩ (inspectModel env ref).state.methods = ∅ ∧
    (inspectModel env ref).state.attributes ∩ (inspectModel env ref).state.properties = ∅ ∧
    (inspectModel env ref).state.methods ∩ (inspectModel env ref).state.properties = ∅ := by
  obtain ⟨hitems, hattrs, hmeths, hprops⟩ := inspect_invariants env ref
  refine ⟨hitems, ?_, ?_, ?_, ?_, ?_⟩
  · ext n
    simp only [Finset.mem_inter, Finset.not_mem_empty, iff_false, not_and]
    intro ha hf
    exact (hattrs n ha).2.1 hf
  · ext n
    simp only [Finset.mem_inter, Finset.not_mem_empty, iff_false, not_and]
    intro hm hf
    exact (hmeths n hm).2.1 hf
  · ext n
    simp only [Finset.mem_inter, Finset.not_mem_empty, iff_false, not_and]
    intro ha hm
    have h1 := (hattrs n ha).2.2
    have h2 := mwa_implies_aba _ (hmeths n hm).2.2.2
    rw [h1] at h2
    exact Bool.false_ne_true h2
  · ext n
    simp only [Finset.mem_inter, Finset.not_mem_empty, iff_false, not_and]
    intro ha hp
    have h1 := (hattrs n ha).2.2
    have h2 := prop_implies_aba _ (hprops n hp)
    rw [h1] at h2
    exact Bool.false_ne_true h2
  · ext n
    simp only [Finset.mem_inter, Finset.not_mem_empty, iff_false, not_and]
    intro hm hp
    have h1 := (hmeths n hm).2.2.2
    have h2 := prop_not_mwa _ (hprops n hp)
    rw [h2] at h1
    exact Bool.false_ne_true h1

/-- C2: every entry of the model's field metadata is classified as the
branching of lines 82–97 dictates: a direct entry carrying relation
metadata goes, under its field name, to `many_fields` when the relation
descriptor carries a `through` link table and to `relation_fields`
otherwise; a direct entry without relation metadata goes to `fields`; a
reverse entry goes, under its resolved accessor name, to `many_fields`
when the remote relation is multiple-cardinality from this side and to
`relation_fields` otherwise.  (Stated for a model whose field-metadata
names are distinct, as Django guarantees.) -/
theorem C2_field_classification (env : Env) (ref : ModelRef) (opts : Meta)
    (e : FieldEntry) (hmeta : (resolveModel ref).meta = some opts)
    (hnd : (opts.get_fields.map FieldEntry.name).Nodup)
    (he : e ∈ opts.get_fields) :
    ((!e.auto_created || e.concrete) = true →
       (∀ r, e.rel = some r →
          (r.hasThrough = true →
            e.name ∈ (inspectModel env ref).state.many_fields) ∧
          (r.hasThrough = false →
            e.name ∈ (inspectModel env ref).state.relation_fields)) ∧
       (e.rel = none → e.name ∈ (inspectModel env ref).state.fields)) ∧
    ((!e.auto_created || e.concrete) = false →
       (e.field_rel.multiple = true →
          e.accessor_name ∈ (inspectModel env ref).state.many_fields) ∧
       (e.field_rel.multiple = false →
          e.accessor_name ∈ (inspectModel env ref).state.relation_fields)) := by
  have base := update_fields_classifies env (resolveModel ref) opts e hmeta hnd he
  rw [inspect_state_fields, inspect_state_relation, inspect_state_many]
  exact ⟨fun hdir => ⟨(base.2 hdir).2, (base.2 hdir).1⟩, base.1⟩

/-- C2, witness: on the scenario model the foreign-key entry `author`
(direct, relation metadata without a `through` table) is classified into
`relation_fields`. -/
theorem C2_field_classification_witness :
    author_entry ∈ scenario_meta.get_fields ∧
    "author" ∈ (inspectModel ⟨true, true⟩ (.cls scenario_model)).state.relation_fields := by
  refine ⟨by decide, ?_⟩
  have h := C2_field_classification ⟨true, true⟩ (.cls scenario_model)
    scenario_meta author_entry rfl (by decide) (by decide)
  exact ((h.1 (by decide)).1 ⟨false, true⟩ rfl).2 rfl

/-- C3, counterexample: the name `touch`, bound to a function whose only
parameter is a defaulted receiver (`def touch(self=None)`), survives all
exclusions and has required-parameter count zero in the spec's sense
(after the implicit receiver and after subtracting defaulted parameters),
yet the code does not place it in `methods`: line 153 drops the defaulted
receiver itself, leaving zero counted parameters where exactly one is
required. -/
theorem C3_methods_iff_counterexample :
    "touch" ∈ defaulted_self_model.dirNames ∧
    startswith_underscore "touch" = false ∧
    "touch" ∉ (inspectModel ⟨true, true⟩ (.cls defaulted_self_model)).state.fields ∧
    "touch" ∉ DJANGO_GENERATED_METHODS ∧
    defaulted_self_model.getattrOrNone "touch" = .function 1 1 ∧
    spec_required_param_count 1 1 = 0 ∧
    "touch" ∉ (inspectModel ⟨true, true⟩ (.cls defaulted_self_model)).state.methods :=
  ⟨by decide, rfl, by decide, by decide, rfl, rfl, by decide⟩

/-- C3 (amended): a member name surviving the underscore/field/denylist
exclusions is placed in `methods` if and only if its value is a function
or bound method whose number of parameters without defaults, the
receiver included, is exactly one — i.e. zero required parameters beyond
a receiver that itself carries no default. -/
theorem C3_methods_iff_amended (env : Env) (ref : ModelRef) (m : String)
    (hdir : m ∈ (resolveModel ref).dirNames)
    (h1 : startswith_underscore m = false)
    (h2 : m ∉ (inspectModel env ref).state.fields)
    (h3 : m ∉ DJANGO_GENERATED_METHODS) :
    m ∈ (inspectModel env ref).state.methods ↔
      ∃ nargs ndefaults : Nat,
        ((resolveModel ref).getattrOrNone m = .function nargs ndefaults ∨
         (resolveModel ref).getattrOrNone m = .boundMethod nargs ndefaults) ∧
        nargs - ndefaults = 1 := by
  constructor
  · intro hmem
    have hmwa := ((inspect_invariants env ref).2.2.1 m hmem).2.2.2
    cases hv : (resolveModel ref).getattrOrNone m with
    | pyNone => rw [hv] at hmwa; simp [is_method_without_args] at hmwa
    | function n d =>
      rw [hv] at hmwa
      exact ⟨n, d, Or.inl rfl, by simpa [is_method_without_args] using hmwa⟩
    | boundMethod n d =>
      rw [hv] at hmwa
      exact ⟨n, d, Or.inr rfl, by simpa [is_method_without_args] using hmwa⟩
    | prop => rw [hv] at hmwa; simp [is_method_without_args] at hmwa
    | manager => rw [hv] at hmwa; simp [is_method_without_args] at hmwa
    | otherNonAttr => rw [hv] at hmwa; simp [is_method_without_args] at hmwa
    | plainValue => rw [hv] at hmwa; simp [is_method_without_args] at hmwa
  · rintro ⟨n, d, hv, harity⟩
    have h4 : is_method_without_args ((resolveModel ref).getattrOrNone m) = true := by
      rcases hv with hv | hv <;> rw [hv] <;>
        simp [is_method_without_args, harity]
    rw [inspect_state_methods]
    refine update_methods_establishes _ _ _ hdir h1 ?_ h3 h4
    rw [update_attributes_fields]
    rw [← inspect_state_fields]
    exact h2

/-- C3, witness for the amended claim: on the scenario model the name
`summary`, bound to a function with one non-defaulted parameter (the
receiver), lands in `methods`. -/
theorem C3_methods_iff_amended_witness :
    "summary" ∈ (inspectModel ⟨true, true⟩ (.cls scenario_model)).state.methods :=
  (C3_methods_iff_amended ⟨true, true⟩ (.cls scenario_model) "summary"
    (by decide) rfl (by decide) (by decide)).mpr ⟨1, 0, Or.inl rfl, rfl⟩

/-- C4: for every model and import environment, no name of the fixed
lifecycle denylist `DJANGO_GENERATED_METHODS` (which contains `save`)
appears in `methods`: line 130 skips denylisted names before the arity
test runs. -/
theorem C4_denylist_excluded (env : Env) (ref : ModelRef) :
    (inspectModel env ref).state.methods ∩ DJANGO_GENERATED_METHODS = ∅ := by
  have h := (inspect_invariants env ref).2.2.1
  ext n
  simp only [Finset.mem_inter, Finset.not_mem_empty, iff_false, not_and]
  intro hm hd
  exact (h n hm).2.2.1 hd

/-- C5: when the generic-foreign-key import fails (`ImportError` caught on
lines 98–105), construction still succeeds — the embedded constructor is
total — and behaves exactly as if the model had zero virtual fields: the
resulting state is identical to a construction with the import available
on the same model stripped of its `virtual_fields`, so no generic-FK name
is added to `relation_fields`. -/
theorem C5_generic_fk_unavailable (mgr : Bool) (ref : ModelRef) :
    (inspectModel ⟨false, mgr⟩ ref).state =
      (inspectModel ⟨true, mgr⟩ (strip_virtual_ref ref)).state := by
  cases ref with
  | cls c => obtain ⟨meta, members⟩ := c; cases meta <;> rfl
  | inst c => obtain ⟨meta, members⟩ := c; cases meta <;> rfl

/-- C6: on the scenario model (plain text field `title`, foreign key
`author`, many-to-many `tags`, computed property `display_name`,
zero-argument method `summary`), construction yields exactly the sets the
spec lists. -/
theorem C6_scenario_classification :
    (inspectModel ⟨true, true⟩ (.cls scenario_model)).state.fields = {"title"} ∧
    (inspectModel ⟨true, true⟩ (.cls scenario_model)).state.relation_fields = {"author"} ∧
    (inspectModel ⟨true, true⟩ (.cls scenario_model)).state.many_fields = {"tags"} ∧
    (inspectModel ⟨true, true⟩ (.cls scenario_model)).state.properties = {"display_name"} ∧
    (inspectModel ⟨true, true⟩ (.cls scenario_model)).state.methods = {"summary"} :=
  ⟨rfl, rfl, rfl, rfl, rfl⟩

/-- C7, counterexample: underscore-prefixed names do reach the inspector's
sets.  On `underscore_model`, the plain field `_secret`, the reverse
accessor names `_rel` and `_many`, and the property `_hidden` (line 138
scans `dir()` with no underscore filter) are all classified. -/
theorem C7_underscore_counterexample :
    ("_secret" ∈ (inspectModel ⟨true, true⟩ (.cls underscore_model)).state.fields ∧
      startswith_underscore "_secret" = true) ∧
    ("_rel" ∈ (inspectModel ⟨true, true⟩ (.cls underscore_model)).state.relation_fields ∧
      startswith_underscore "_rel" = true) ∧
    ("_many" ∈ (inspectModel ⟨true, true⟩ (.cls underscore_model)).state.many_fields ∧
      startswith_underscore "_many" = true) ∧
    ("_hidden" ∈ (inspectModel ⟨true, true⟩ (.cls underscore_model)).state.properties ∧
      startswith_underscore "_hidden" = true) :=
  ⟨⟨by decide, rfl⟩, ⟨by decide, rfl⟩, ⟨by decide, rfl⟩, ⟨by decide, rfl⟩⟩

/-- C7 (amended): no name in `attributes` or `methods` starts with an
underscore — those are the two passes that filter on the prefix (lines
111 and 128).  `fields`, `relation_fields`, `many_fields` and
`properties` carry no such guarantee. -/
theorem C7_underscore_amended (env : Env) (ref : ModelRef) (n : String)
    (h : n ∈ (inspectModel env ref).state.attributes ∪
      (inspectModel env ref).state.methods) :
    startswith_underscore n = false := by
  rcases Finset.mem_union.mp h with ha | hm
  · exact ((inspect_invariants env ref).2.1 n ha).1
  · exact ((inspect_invariants env ref).2.2.1 n hm).1

/-- C7, witness for the amended claim: the plain attribute `color` of
`underscore_model` is in `attributes` and indeed has no underscore
prefix. -/
theorem C7_underscore_amended_witness :
    "color" ∈ (inspectModel ⟨true, true⟩ (.cls underscore_model)).state.attributes ∪
      (inspectModel ⟨true, true⟩ (.cls underscore_model)).state.methods ∧
    startswith_underscore "color" = false :=
  ⟨by decide,
   C7_underscore_amended ⟨true, true⟩ (.cls underscore_model) "color" (by decide)⟩

/-- C8: constructing the inspector from a model instance gives results
identical to constructing it from the class (lines 41–43 resolve the
instance to its class before any pass runs), and the `model` attribute is
the resolved class in both cases. -/
theorem C8_instance_class_equivalence (env : Env) (c : PyClass) :
    inspectModel env (.inst c) = inspectModel env (.cls c) ∧
    (inspectModel env (.inst c)).model = c ∧
    (inspectModel env (.cls c)).model = c :=
  ⟨rfl, rfl, rfl⟩

/-- C9: construction is deterministic: any two inspectors built on the
same model reference under the same import environment have identical
category sets and `items`.  In the embedding the constructor is a pure
function of the model and the environment, so the two results coincide
definitionally. -/
theorem C9_deterministic (env : Env) (ref : ModelRef) (r1 r2 : InspectResult)
    (h1 : r1 = inspectModel env ref) (h2 : r2 = inspectModel env ref) :
    r1.state.fields = r2.state.fields ∧
    r1.state.relation_fields = r2.state.relation_fields ∧
    r1.state.many_fields = r2.state.many_fields ∧
    r1.state.attributes = r2.state.attributes ∧
    r1.state.methods = r2.state.methods ∧
    r1.state.properties = r2.state.properties ∧
    r1.state.items = r2.state.items := by
  subst h1
  subst h2
  exact ⟨rfl, rfl, rfl, rfl, rfl, rfl, rfl⟩

/-- C9, witness: two constructions on the scenario model agree. -/
theorem C9_deterministic_witness :
    (inspectModel ⟨true, true⟩ (.cls scenario_model)).state.fields =
      (inspectModel ⟨true, true⟩ (.cls scenario_model)).state.fields :=
  (C9_deterministic ⟨true, true⟩ (.cls scenario_model)
    (inspectModel ⟨true, true⟩ (.cls scenario_model))
    (inspectModel ⟨true, true⟩ (.cls scenario_model)) rfl rfl).1

/-- C10: on a model class without a `_meta` attribute
(`getattr(model, '_meta', None)` is `None`, line 72), construction
succeeds, the three field sets stay empty, and the attribute, method and
property passes run exactly as they would on any model with those
members. -/
theorem C10_no_meta (env : Env) (members : List (String × MemberValue)) :
    (inspectModel env (.cls ⟨none, members⟩)).state.fields = ∅ ∧
    (inspectModel env (.cls ⟨none, members⟩)).state.relation_fields = ∅ ∧
    (inspectModel env (.cls ⟨none, members⟩)).state.many_fields = ∅ ∧
    (inspectModel env (.cls ⟨none, members⟩)).state =
      update_properties ⟨none, members⟩
        (update_methods ⟨none, members⟩
          (update_attributes env ⟨none, members⟩ initState)) := by
  refine ⟨?_, ?_, ?_, rfl⟩
  · rw [inspect_state_fields]
    rfl
  · rw [inspect_state_relation]
    rfl
  · rw [inspect_state_many]
    rfl


end InspectModelSpec
